import Mathlib

/-!
Verification of the pod-orchestration core of the `runpods` repository.

The Python sources under `scripts/` are shallowly embedded: Python strings
become `List Char` (so every operation is kernel-computable), the external
collaborators (`subprocess.run`, the RunPod provider API, `input()`) become
explicit function arguments supplying their outcomes, and each embedded
definition mirrors one Python function, keeping its name where Lean allows.
-/

/-- Python strings are modelled as lists of characters. -/
abbrev Str := List Char

/-- `str.lower()`. -/
def pyLower (s : Str) : Str := s.map Char.toLower

/-- `str.split(sep)` for a one-character separator (the only form the
embedded code uses: `url_lower.split("/")`). -/
def splitOnChar (sep : Char) (s : Str) : List Str :=
  match s with
  | [] => [[]]
  | c :: rest =>
    let r := splitOnChar sep rest
    if c = sep then [] :: r
    else
      match r with
      | [] => [[c]]
      | h :: t => (c :: h) :: t

/-- Python's `pat in s` substring test. -/
def containsSub (pat : Str) (s : Str) : Bool :=
  match s with
  | [] => pat.isPrefixOf ([] : Str)
  | _ :: t => pat.isPrefixOf s || containsSub pat t

/-- Whitespace as stripped by `str.strip()` (the ASCII cases; the embedded
code only ever strips command output and operator input). -/
def isPySpace (c : Char) : Bool :=
  c = ' ' || c = '\t' || c = '\n' || c = '\r' || c = '\x0b' || c = '\x0c'

/-- `str.strip()`. -/
def pyStrip (s : Str) : Str :=
  ((s.dropWhile isPySpace).reverse.dropWhile isPySpace).reverse

/-- `str.isdigit()` (ASCII digits; all inputs compared in the code are
operator-typed menu numbers). -/
def isDigitStr (s : Str) : Bool := !s.isEmpty && s.all Char.isDigit

/-- `int(s)` on a digit string. -/
def pyToNat (s : Str) : Nat :=
  s.foldl (fun n c => n * 10 + (c.toNat - 48)) 0

/-- Decimal rendering of a natural number, for Python's implicit
int-to-string interpolation. -/
def natToStr (n : Nat) : Str := Nat.toDigits 10 n

/- ===== scripts/core/ssh.py ===== -/

/-- `subprocess.CompletedProcess`: what `subprocess.run` hands back when the
spawned command terminates (with any exit code; `run_command` passes no
`check=True`, so a non-zero exit code is returned here, not raised). -/
structure CompletedProcess where
  returncode : Int
  stdout : Str
  stderr : Str
deriving DecidableEq

/-- Failures `subprocess.run` itself can raise (`TimeoutExpired`, OS-level
spawn errors).  The exit code of the remote command is deliberately not
among them: without `check=True` a non-zero exit is not an exception. -/
inductive SubprocessError where
  | timeoutExpired
  | osError
deriving DecidableEq

/-- Observable outcome of one run of the `retry`-wrapped function: the final
result, the sleeps performed between attempts, and how many times the
wrapped function was invoked. -/
structure RetryOutcome (E A : Type) where
  result : Except E A
  sleeps : List ℚ
  attempts : Nat

/-- The loop body of the `retry` decorator (`for attempt in
range(1, max_attempts + 1)`).  `op i` is the outcome of the i-th invocation
(1-indexed) of the wrapped function; `rest` counts the attempts still
allowed after the current one (so `attempt < max_attempts` in the source is
`rest > 0` here); `current_delay` is multiplied by `backoff` after each
sleep.  Delays are exact rationals: the float values involved (2.0, 1.5,
1.0 and their products over at most two steps) are all exactly
representable. -/
def retryGo {E A : Type} (op : Nat → Except E A) (backoff : ℚ) :
    Nat → Nat → ℚ → RetryOutcome E A
  | attempt, rest, current_delay =>
    match op attempt with
    | .ok a => ⟨.ok a, [], 1⟩
    | .error e =>
      match rest with
      | 0 => ⟨.error e, [], 1⟩
      | r + 1 =>
        let out := retryGo op backoff (attempt + 1) r (current_delay * backoff)
        ⟨out.result, current_delay :: out.sleeps, out.attempts + 1⟩

/-- `retry(max_attempts, delay, backoff)` applied to an operation.  The
decorator is only ever instantiated with `max_attempts ≥ 1` (3 and 2 in
ssh.py); for `max_attempts = 0` the Python loop body never runs and the
trailing `raise last_error` raises `None`, a degenerate case outside this
model. -/
def retry {E A : Type} (op : Nat → Except E A) (max_attempts : Nat)
    (delay backoff : ℚ) : RetryOutcome E A :=
  retryGo op backoff 1 (max_attempts - 1) delay

/-- `PodInfo` dataclass (the fields the embedded operations read). -/
structure PodInfo where
  id : Str
  name : Str
  ip : Str
  port : Str
  gpu_name : Str
  cost_per_hr : ℚ
deriving DecidableEq

/-- `SSHManager.get_base_cmd`. -/
def get_base_cmd (key_path : Str) (pod : PodInfo) : Str :=
  "ssh -p ".data ++ pod.port ++ " -i \"".data ++ key_path ++
    "\" -o StrictHostKeyChecking=no root@".data ++ pod.ip

/-- `SSHManager.run_command`: composes the ssh invocation and runs it under
`@retry(max_attempts=3, delay=2.0)` (backoff keeps its default 1.5).
`subprocess_run cmd capture attempt` supplies the outcome of
`subprocess.run(cmd, shell=True, capture_output=capture, ...)` on the given
attempt. -/
def run_command (key_path : Str) (pod : PodInfo) (command : Str)
    (capture : Bool)
    (subprocess_run : Str → Bool → Nat → Except SubprocessError CompletedProcess) :
    RetryOutcome SubprocessError CompletedProcess :=
  let ssh_cmd := get_base_cmd key_path pod ++ " \"".data ++ command ++ "\"".data
  retry (fun attempt => subprocess_run ssh_cmd capture attempt) 3 2 (3 / 2)

/-- `SSHManager.check_file_exists`: built on `run_command` with
`capture=True`, interpreting the stripped stdout against the `YES`
sentinel. -/
def check_file_exists (key_path : Str) (pod : PodInfo) (path : Str)
    (subprocess_run : Str → Bool → Nat → Except SubprocessError CompletedProcess) :
    RetryOutcome SubprocessError Bool :=
  let r := run_command key_path pod
    ("test -f ".data ++ path ++ " && echo YES || echo NO".data) true subprocess_run
  ⟨r.result.map (fun res => pyStrip res.stdout == "YES".data), r.sleeps, r.attempts⟩

/-- `SSHManager.check_process_running`: built on `run_command` with
`capture=True`, interpreting non-empty stripped stdout of `pgrep -f` as
true. -/
def check_process_running (key_path : Str) (pod : PodInfo) (process_name : Str)
    (subprocess_run : Str → Bool → Nat → Except SubprocessError CompletedProcess) :
    RetryOutcome SubprocessError Bool :=
  let r := run_command key_path pod
    ("pgrep -f \"".data ++ process_name ++ "\"".data) true subprocess_run
  ⟨r.result.map (fun res => !(pyStrip res.stdout).isEmpty), r.sleeps, r.attempts⟩

/-- The scp command string `SSHManager.download_files` builds. -/
def scp_download_cmd (key_path : Str) (pod : PodInfo)
    (remote_path local_path : Str) (recursive : Bool) : Str :=
  "scp -P ".data ++ pod.port ++ " -i \"".data ++ key_path ++
    "\" -o StrictHostKeyChecking=no ".data ++
    (if recursive then "-r".data else []) ++
    " root@".data ++ pod.ip ++ ":".data ++ remote_path ++
    " \"".data ++ local_path ++ "\"".data

/-- `SSHManager.download_files`: runs the scp command under
`@retry(max_attempts=2, delay=1.0)`. -/
def download_files (key_path : Str) (pod : PodInfo)
    (remote_path local_path : Str) (recursive : Bool)
    (subprocess_run : Str → Nat → Except SubprocessError CompletedProcess) :
    RetryOutcome SubprocessError CompletedProcess :=
  retry
    (fun attempt =>
      subprocess_run (scp_download_cmd key_path pod remote_path local_path recursive) attempt)
    2 1 (3 / 2)

/-- An action `download_files` performs on the local machine. -/
inductive LocalAction where
  | shellRun (cmd : Str)
  | makeDirs (path : Str)
deriving DecidableEq

/-- Whether a local action is a directory creation. -/
def LocalAction.isMakeDirs : LocalAction → Bool
  | .makeDirs _ => true
  | .shellRun _ => false

/-- The local-machine action trace of one `download_files` call: each retry
attempt spawns exactly the scp command; the function body contains no other
local action (in particular no `os.makedirs` / `Path.mkdir`). -/
def download_files_actions (key_path : Str) (pod : PodInfo)
    (remote_path local_path : Str) (recursive : Bool)
    (subprocess_run : Str → Nat → Except SubprocessError CompletedProcess) :
    List LocalAction :=
  List.replicate
    (download_files key_path pod remote_path local_path recursive subprocess_run).attempts
    (.shellRun (scp_download_cmd key_path pod remote_path local_path recursive))

/-- Whether an action trace creates the local directory `path`, either by a
direct directory-creation call or by spawning a shell command that mentions
`mkdir`. -/
def creates_local_dir (actions : List LocalAction) (path : Str) : Bool :=
  actions.any fun a =>
    match a with
    | .makeDirs p => p == path
    | .shellRun c => containsSub "mkdir".data c

/- ===== scripts/rpa.py ===== -/

/-- `MODEL_FOLDERS`: the fixed, ordered category list for asset
ingestion. -/
def MODEL_FOLDERS : List Str :=
  ["checkpoints".data, "unet".data, "diffusion_models".data, "clip".data,
   "text_encoders".data, "vae".data, "loras".data, "clip_vision".data,
   "latent_upscale_models".data, "controlnet".data, "upscale_models".data]

/-- Stable insertion of `x` into a list sorted by decreasing length: `x`
goes before the first element that is not longer than it, so equal lengths
keep their original relative order, as the stable CPython
`sorted(key=len, reverse=True)` does. -/
def insertByLen (x : Str) : List Str → List Str
  | [] => [x]
  | y :: ys => if y.length ≤ x.length then x :: y :: ys else y :: insertByLen x ys

/-- Stable sort by decreasing length, modelling
`sorted(MODEL_FOLDERS, key=len, reverse=True)`. -/
def sortByLenDesc : List Str → List Str
  | [] => []
  | x :: xs => insertByLen x (sortByLenDesc xs)

/-- The `sorted_folders` local of `guess_category`. -/
def sorted_folders : List Str := sortByLenDesc MODEL_FOLDERS

/-- The lowercased path segments of a URL (`url_lower.split("/")`). -/
def url_parts (url : Str) : List Str := splitOnChar '/' (pyLower url)

/-- `guess_category`: first a full-path-segment pass over the
length-descending folder list, then a substring fallback pass over the same
list, else `None`. -/
def guess_category (url : Str) : Option Str :=
  let url_lower := pyLower url
  let parts := splitOnChar '/' url_lower
  match sorted_folders.find? (fun folder => parts.contains folder) with
  | some folder => some folder
  | none => sorted_folders.find? (fun folder => containsSub folder url_lower)

/-- The numeric-selection step of `cmd_ingest`'s review phase: skip when the
input is not all digits or is zero, else pick
`MODEL_FOLDERS[min(int(c_idx) - 1, len(MODEL_FOLDERS) - 1)]`. -/
def ingest_review_select (c_idx : Str) : Option Str :=
  if !isDigitStr c_idx || pyToNat c_idx == 0 then none
  else some (MODEL_FOLDERS.getD (min (pyToNat c_idx - 1) (MODEL_FOLDERS.length - 1)) [])

/-- Destination directory of a reviewed download
(the models directory of ComfyUI joined with the folder name), `none`
when the file was
skipped. -/
def ingest_review_dest (c_idx : Str) : Option Str :=
  (ingest_review_select c_idx).map
    (fun folder_name => "/workspace/ComfyUI/models/".data ++ folder_name)

/-- One entry of a pod's `runtime.ports` list.  `privatePort` and
`publicPort` are read with mandatory presence in the source
(a plain subscript); `isIpPublic` is read with a plain get whose missing
case (a falsy None) is modelled as `false`; `ip` is read with a
defaulting get. -/
structure PortMap where
  privatePort : Nat
  publicPort : Nat
  ip : Option Str
  isIpPublic : Bool
deriving DecidableEq

/-- The `machine` sub-dictionary: read with a defaulting get of `machine`
and then a defaulting get of `podHostId` whose fallback is the literal
`unknown`. -/
structure MachineInfo where
  podHostId : Option Str
deriving DecidableEq

/-- A provider pod record as the orchestrator reads it: every field is
accessed through a defaulting get, so each is optional; `runtime` models
the runtime dictionary, falsy-or-absent collapsing to an empty port
list. -/
structure PodRec where
  id : Str
  name : Option Str
  desiredStatus : Option Str
  runtime : Option (List PortMap)
  machine : Option MachineInfo
  costPerHr : Option ℚ

/-- The port list: the runtime dictionary defaulted to empty, then its
ports defaulted to the empty list. -/
def pod_ports (pod : PodRec) : List PortMap := pod.runtime.getD []

/-- The host identifier: a defaulting get of `machine`, then a defaulting
get of `podHostId` with fallback `unknown`. -/
def pod_host_id (pod : PodRec) : Str :=
  ((pod.machine.map MachineInfo.podHostId).getD none).getD "unknown".data

/-- The ssh-readiness test of `wait_for_pod`'s loop body: desired status
`RUNNING` and some port mapping with private port 22 and the
publicly-reachable flag set. -/
def ssh_ready (pod : PodRec) : Bool :=
  pod.desiredStatus == some "RUNNING".data &&
    (pod_ports pod).any (fun p => p.privatePort == 22 && p.isIpPublic)

/-- Outcome of `wait_for_pod`: the pod record once reachable, or the raised
`TimeoutError`. -/
inductive WaitOutcome where
  | found (pod : PodRec)
  | timedOut

/-- The polling loop of `wait_for_pod`: `poll m` is the outcome of the m-th
`runpod.get_pod` call (an exception is swallowed after a 2s sleep; a record
that is not ssh-ready is re-polled after a 5s sleep); `t` is the elapsed
wall-clock spent sleeping, checked against `timeout` before each poll. -/
def wait_loop {E : Type} (poll : Nat → Except E PodRec) (timeout : Nat)
    (n t : Nat) : WaitOutcome :=
  if _h : t < timeout then
    match poll n with
    | .error _ => wait_loop poll timeout (n + 1) (t + 2)
    | .ok pod =>
      if ssh_ready pod then .found pod else wait_loop poll timeout (n + 1) (t + 5)
  else .timedOut
termination_by timeout - t

/-- `wait_for_pod(pod_id, timeout=300)`'s default timeout budget. -/
def wait_for_pod_default_timeout : Nat := 300

/-- `wait_for_pod` itself: loop from zero elapsed time. -/
def wait_for_pod {E : Type} (poll : Nat → Except E PodRec) (timeout : Nat) :
    WaitOutcome :=
  wait_loop poll timeout 0 0

/-- What `cmd_deploy` does with the wait: on `TimeoutError` it prints and
returns.  `terminate_calls` records every `runpod.terminate_pod` request
this path issues — the body of `cmd_deploy` (and of `wait_for_pod`)
contains none, on success and timeout alike. -/
structure DeployWaitResult where
  deployed : Bool
  terminate_calls : List Str

/-- The wait phase of `cmd_deploy` with the default 300s budget. -/
def cmd_deploy_wait {E : Type} (poll : Nat → Except E PodRec) : DeployWaitResult :=
  match wait_for_pod poll wait_for_pod_default_timeout with
  | .found _ => ⟨true, []⟩
  | .timedOut => ⟨false, []⟩

/-- The two provider cloud tiers: `SECURE` (higher availability) and
`COMMUNITY` (cheaper, less available). -/
inductive CloudType where
  | SECURE
  | COMMUNITY
deriving DecidableEq

/-- How the acquisition phase of `cmd_deploy` ends: an existing or newly
created pod, a printed-and-abandoned creation failure (`return` after
`print`), or an uncaught exception from the fallback creation. -/
inductive AcquireOutcome (E : Type) where
  | success (pod : PodRec) (reused : Bool)
  | gaveUp (e : E)
  | raised (e : E)

/-- The acquisition phase of `cmd_deploy`: look up existing pods by the
config name filtered to desired status `RUNNING` and reuse the first match;
otherwise create, and on a creation failure fall back — once — to `SECURE`
when the template tier was `COMMUNITY`, else print and return.
`create_pod i ct` is the outcome of the (0-indexed) i-th `runpod.create_pod`
call, issued with cloud type `ct`; the second component of the result lists
the cloud types of the create calls actually made, in order. -/
def cmd_deploy_acquire {E : Type} (pods : List PodRec) (cfg_name : Str)
    (cloud_type : CloudType)
    (create_pod : Nat → CloudType → Except E PodRec) :
    AcquireOutcome E × List CloudType :=
  let existing := pods.filter
    (fun p => p.name == some cfg_name && p.desiredStatus == some "RUNNING".data)
  match existing with
  | pod :: _ => (.success pod true, [])
  | [] =>
    match create_pod 0 cloud_type with
    | .ok pod => (.success pod false, [cloud_type])
    | .error e =>
      match cloud_type with
      | .COMMUNITY =>
        match create_pod 1 .SECURE with
        | .ok pod => (.success pod false, [cloud_type, .SECURE])
        | .error e2 => (.raised e2, [cloud_type, .SECURE])
      | .SECURE => (.gaveUp e, [cloud_type])

/-- The connection dictionary `get_running_pod_info` returns:
its keys are id, ip, port, name and cost. -/
structure ConnInfo where
  id : Str
  ip : Str
  port : Str
  name : Option Str
  cost : Option ℚ

/-- The interactive selection of `get_running_pod_info` on a non-empty
running list: with more than one candidate, a digit choice within
`1..len(running)` picks that entry, anything else defaults to the first;
with exactly one candidate it is taken directly. -/
def select_target (first : PodRec) (rest : List PodRec) (choice : Str) : PodRec :=
  if rest.isEmpty then first
  else if isDigitStr choice && 1 ≤ pyToNat choice
      && pyToNat choice ≤ (first :: rest).length then
    (first :: rest).getD (pyToNat choice - 1) first
  else first

/-- The ssh-endpoint extraction of `get_running_pod_info`: start from the
fallback hostname (the host id followed by `.runpod.io`) with port 22,
then take the first
port mapping whose private port is 22 — without consulting `isIpPublic` —
overriding the port with its public port and the ip when present. -/
def extract_conn (pod : PodRec) : ConnInfo :=
  let base_ip := pod_host_id pod ++ ".runpod.io".data
  match (pod_ports pod).find? (fun p => p.privatePort == 22) with
  | none => ⟨pod.id, base_ip, "22".data, pod.name, pod.costPerHr⟩
  | some p => ⟨pod.id, p.ip.getD base_ip, natToStr p.publicPort, pod.name, pod.costPerHr⟩

/-- `get_running_pod_info`: `None` when the pod listing raises or no pod is
running; otherwise the connection dictionary of the selected running pod.
`fetch` is the outcome of `runpod.get_pods()`, `choice` the
disambiguation input typed by the operator. -/
def get_running_pod_info (fetch : Except Str (List PodRec)) (choice : Str) :
    Option ConnInfo :=
  match fetch with
  | .error _ => none
  | .ok pods =>
    match pods.filter (fun p => p.desiredStatus == some "RUNNING".data) with
    | [] => none
    | first :: rest => some (extract_conn (select_target first rest choice))

/- ===== Retry executor lemmas ===== -/

theorem retryGo_ok {E A : Type} (op : Nat → Except E A) (backoff : ℚ) (k : Nat)
    (a : A) (hsucc : op k = .ok a) :
    ∀ (rest j : Nat) (cur : ℚ), j ≤ k → k ≤ j + rest →
      (∀ i, j ≤ i → i < k → (op i).isOk = false) →
      retryGo op backoff j rest cur =
        ⟨.ok a, (List.range (k - j)).map (fun i => cur * backoff ^ i), k - j + 1⟩ := by
  intro rest
  induction rest with
  | zero =>
    intro j cur hjk hkj hfail
    have hjeq : j = k := le_antisymm hjk (by omega)
    subst hjeq
    rw [retryGo, hsucc]
    simp
  | succ r ih =>
    intro j cur hjk hkj hfail
    by_cases hj : j = k
    · subst hj
      rw [retryGo, hsucc]
      simp
    · have hjk' : j < k := lt_of_le_of_ne hjk hj
      have hfj := hfail j le_rfl hjk'
      cases hop : op j with
      | ok b => rw [hop] at hfj; simp [Except.isOk, Except.toBool] at hfj
      | error e =>
        rw [retryGo, hop]
        dsimp only
        rw [ih (j + 1) (cur * backoff) (by omega) (by omega)
          (fun i h1 h2 => hfail i (by omega) h2)]
        have hn : k - j = (k - (j + 1)) + 1 := by omega
        have hatt : k - (j + 1) + 1 + 1 = k - j + 1 := by omega
        rw [hn]
        congr 1
        rw [List.range_succ_eq_map, List.map_cons, List.map_map]
        congr 1
        · rw [pow_zero, mul_one]
        · apply List.map_congr_left
          intro i _
          simp only [Function.comp_apply]
          rw [pow_succ]
          ring

theorem retryGo_attempts_le {E A : Type} (op : Nat → Except E A) (backoff : ℚ) :
    ∀ (rest j : Nat) (cur : ℚ), (retryGo op backoff j rest cur).attempts ≤ rest + 1 := by
  intro rest
  induction rest with
  | zero =>
    intro j cur
    rw [retryGo]
    cases op j <;> simp
  | succ r ih =>
    intro j cur
    rw [retryGo]
    cases op j with
    | ok a => simp
    | error e =>
      dsimp only
      have := ih (j + 1) (cur * backoff)
      omega

theorem retryGo_attempts_allfail {E A : Type} (op : Nat → Except E A) (backoff : ℚ)
    (hfail : ∀ i, (op i).isOk = false) :
    ∀ (rest j : Nat) (cur : ℚ), (retryGo op backoff j rest cur).attempts = rest + 1 := by
  intro rest
  induction rest with
  | zero =>
    intro j cur
    rw [retryGo]
    cases op j <;> simp
  | succ r ih =>
    intro j cur
    have hfj := hfail j
    cases hop : op j with
    | ok b => rw [hop] at hfj; simp [Except.isOk, Except.toBool] at hfj
    | error e =>
      rw [retryGo, hop]
      dsimp only
      rw [ih (j + 1) (cur * backoff)]

/-- C5: when an operation fails on its first k-1 invocations and succeeds on
invocation k with k ≤ maxAttempts, the retry executor returns the success
value of invocation k, sleeps exactly
`initialDelay * backoffMultiplier^(i-1)` for i = 1..k-1 in that order (no
sleep after the final attempt), and has invoked the operation exactly k
times. -/
theorem retry_success_delay_sequence {E A : Type} (op : Nat → Except E A)
    (max_attempts k : Nat) (delay backoff : ℚ) (a : A)
    (hk : 1 ≤ k) (hkm : k ≤ max_attempts)
    (hfail : ∀ i, 1 ≤ i → i < k → (op i).isOk = false)
    (hsucc : op k = .ok a) :
    retry op max_attempts delay backoff =
      ⟨.ok a, (List.range (k - 1)).map (fun i => delay * backoff ^ i), k⟩ := by
  rw [retry, retryGo_ok op backoff k a hsucc (max_attempts - 1) 1 delay hk (by omega) hfail]
  congr 1
  omega

/-- C5 witness: an operation failing twice then succeeding on attempt 3,
under the `run_command` parameters (3 attempts, base delay 2, backoff 1.5). -/
theorem retry_success_delay_sequence_witness :
    retry (fun i => if i < 3 then (Except.error () : Except Unit Nat) else .ok 42)
        3 2 (3 / 2) =
      ⟨.ok 42, (List.range 2).map (fun i => 2 * (3 / 2 : ℚ) ^ i), 3⟩ :=
  retry_success_delay_sequence _ 3 3 2 (3 / 2) 42 (by decide) (by decide)
    (by intro i h1 h2; interval_cases i <;> rfl) rfl

/- ===== C1, C2, C4: remote command / transfer client ===== -/

/-- A concrete pod endpoint used by closed counterexamples and witnesses. -/
def pod0 : PodInfo :=
  ⟨"podid1".data, "ltx2-comfyui-prod".data, "1.2.3.4".data, "40000".data,
   "Unknown".data, 0⟩

/-- C1 counterexample: with the transport completing the remote command with
exit code 1 (capture not requested), `run_command` returns that completed
process as a normal result on the first attempt — it does not raise
anything (`subprocess.run` is invoked without `check=True`, and no
`RemoteExecutionError` exists in the code). -/
theorem run_command_nonzero_exit_returns_normally :
    (run_command ("~/.ssh/id_ed25519".data) pod0 ("exit 1".data) false
        (fun _ _ _ => .ok ⟨1, [], []⟩)).result = .ok ⟨1, [], []⟩
    ∧ (run_command ("~/.ssh/id_ed25519".data) pod0 ("exit 1".data) false
        (fun _ _ _ => .ok ⟨1, [], []⟩)).attempts = 1
    ∧ ((1 : Int) ≠ 0) :=
  ⟨rfl, rfl, by decide⟩

/-- C1 amended: `run_command` never inspects the remote exit code — whatever
completed process the first `subprocess.run` attempt hands back (non-zero
exit code included, capture requested or not) is returned unchanged to the
caller, with no retry and no exception. -/
theorem run_command_returns_first_completion (key_path : Str) (pod : PodInfo)
    (command : Str) (capture : Bool)
    (subprocess_run : Str → Bool → Nat → Except SubprocessError CompletedProcess)
    (cp : CompletedProcess)
    (h : subprocess_run
        (get_base_cmd key_path pod ++ " \"".data ++ command ++ "\"".data)
        capture 1 = .ok cp) :
    run_command key_path pod command capture subprocess_run = ⟨.ok cp, [], 1⟩ := by
  rw [run_command, retry, retryGo]
  simp only [h]

/-- C1 amended witness: a remote command exiting with code 7, capture not
requested. -/
theorem run_command_returns_first_completion_witness :
    run_command ("~/.ssh/id_ed25519".data) pod0 ("false".data) false
        (fun _ _ _ => .ok ⟨7, [], []⟩) = ⟨.ok ⟨7, [], []⟩, [], 1⟩ :=
  run_command_returns_first_completion _ _ _ _ _ _ rfl

/-- C2 counterexample: one invocation of `check_file_exists` (and of
`check_process_running`) against a transport that fails every attempt
invokes the underlying remote command 3 times, not at most once: the
queries delegate to `run_command`, which is wrapped in
`@retry(max_attempts=3)`. -/
theorem existence_checks_attempt_three_times :
    (check_file_exists ("~/.ssh/id_ed25519".data) pod0 ("/workspace/x".data)
        (fun _ _ _ => .error .timeoutExpired)).attempts = 3
    ∧ (check_process_running ("~/.ssh/id_ed25519".data) pod0 ("comfyui".data)
        (fun _ _ _ => .error .timeoutExpired)).attempts = 3
    ∧ ¬(3 ≤ 1) :=
  ⟨rfl, rfl, by decide⟩

/-- C2 amended: the two convenience queries are built on `run_command` with
capture, and add no retry layer of their own — but `run_command` itself is
retried at 3 attempts, so a single query invocation attempts the underlying
remote command between 1 and 3 times: exactly 3 when the transport fails
persistently. -/
theorem existence_checks_inherit_run_command_retry (key_path : Str)
    (pod : PodInfo) (path pattern : Str)
    (subprocess_run : Str → Bool → Nat → Except SubprocessError CompletedProcess) :
    (check_file_exists key_path pod path subprocess_run).attempts ≤ 3
    ∧ (check_process_running key_path pod pattern subprocess_run).attempts ≤ 3
    ∧ ((∀ c b n, (subprocess_run c b n).isOk = false) →
        (check_file_exists key_path pod path subprocess_run).attempts = 3
        ∧ (check_process_running key_path pod pattern subprocess_run).attempts = 3) := by
  refine ⟨?_, ?_, fun hfail => ⟨?_, ?_⟩⟩
  · simp only [check_file_exists, run_command, retry]
    exact retryGo_attempts_le _ _ 2 1 2
  · simp only [check_process_running, run_command, retry]
    exact retryGo_attempts_le _ _ 2 1 2
  · simp only [check_file_exists, run_command, retry]
    exact retryGo_attempts_allfail _ _ (fun i => hfail _ _ i) 2 1 2
  · simp only [check_process_running, run_command, retry]
    exact retryGo_attempts_allfail _ _ (fun i => hfail _ _ i) 2 1 2

/-- C2 amended witness: a persistently failing transport reaches exactly 3
attempts for both queries. -/
theorem existence_checks_inherit_run_command_retry_witness :
    (check_file_exists ("k".data) pod0 ("/tmp/f".data)
        (fun _ _ _ => .error .osError)).attempts = 3
    ∧ (check_process_running ("k".data) pod0 ("python".data)
        (fun _ _ _ => .error .osError)).attempts = 3 :=
  (existence_checks_inherit_run_command_retry ("k".data) pod0 ("/tmp/f".data)
      ("python".data) (fun _ _ _ => .error .osError)).2.2
    (fun _ _ _ => rfl)

/-- C4 counterexample: a complete `download_files` run (remote path pulled
into a local destination, recursive, transfer succeeding first try)
performs no action that creates the local destination directory: its only
local effect is spawning the scp command, which contains no `mkdir`. -/
theorem download_files_creates_no_local_directory :
    creates_local_dir
      (download_files_actions ("~/.ssh/id_ed25519".data) pod0
        ("/workspace/ComfyUI/output/*".data) ("./output".data) true
        (fun _ _ => .ok ⟨0, [], []⟩))
      ("./output".data) = false := by decide

/-- C4 amended: `download_files` does not create the local destination
directory — every local action of a call is exactly the spawn of the scp
command it builds, no directory-creation action occurs, and the transfer is
attempted at most twice (its retry budget is 2 attempts). Callers that need
the directory create it themselves (e.g. the mkdir call in `cmd_pull`). -/
theorem download_files_only_runs_scp (key_path : Str) (pod : PodInfo)
    (remote_path local_path : Str) (recursive : Bool)
    (subprocess_run : Str → Nat → Except SubprocessError CompletedProcess) :
    (download_files_actions key_path pod remote_path local_path recursive
        subprocess_run).all
      (fun a => a == .shellRun
        (scp_download_cmd key_path pod remote_path local_path recursive)) = true
    ∧ (download_files_actions key_path pod remote_path local_path recursive
        subprocess_run).all (fun a => !a.isMakeDirs) = true
    ∧ (download_files key_path pod remote_path local_path recursive
        subprocess_run).attempts ≤ 2 := by
  refine ⟨?_, ?_, ?_⟩
  · rw [List.all_eq_true]
    intro a ha
    have := List.eq_of_mem_replicate ha
    subst this
    simp
  · rw [List.all_eq_true]
    intro a ha
    have := List.eq_of_mem_replicate ha
    subst this
    simp [LocalAction.isMakeDirs]
  · exact retryGo_attempts_le _ _ 1 1 1

/- ===== C3: target resolver ===== -/

/-- A running pod record with no runtime port mappings and no machine
descriptor at all. -/
def podNoPorts : PodRec :=
  ⟨"pod1".data, some ("ltx2-comfyui-prod".data), some ("RUNNING".data),
   none, none, none⟩

/-- C3 counterexample: selecting a running pod with no port-22 mapping does
not raise — `get_running_pod_info` returns a connection descriptor built
from the placeholder host `unknown.runpod.io` and the sentinel port 22. -/
theorem resolver_returns_placeholder_descriptor :
    get_running_pod_info (.ok [podNoPorts]) [] =
      some ⟨"pod1".data, "unknown.runpod.io".data, "22".data,
        some ("ltx2-comfyui-prod".data), none⟩
    ∧ (get_running_pod_info (.ok [podNoPorts]) []).isSome = true :=
  ⟨rfl, rfl⟩

/-- C3 amended: when the selected running candidate has no port mapping with
private port 22 (the publicly-reachable flag is never even consulted), the
resolver does not raise: it returns a descriptor whose address is the
fallback hostname (the host id followed by `.runpod.io`;
`unknown.runpod.io` when the
machine/host id is absent) and whose port is the placeholder 22. -/
theorem resolver_falls_back_without_error (pod : PodRec) (choice : Str)
    (hrun : pod.desiredStatus = some ("RUNNING".data))
    (hport : (pod_ports pod).find? (fun p => p.privatePort == 22) = none) :
    get_running_pod_info (.ok [pod]) choice =
      some ⟨pod.id, pod_host_id pod ++ ".runpod.io".data, "22".data,
        pod.name, pod.costPerHr⟩ := by
  simp only [get_running_pod_info, List.filter, hrun, beq_self_eq_true]
  simp only [select_target, List.isEmpty, if_true, extract_conn, hport]

/-- C3 amended witness: the portless running pod. -/
theorem resolver_falls_back_without_error_witness :
    get_running_pod_info (.ok [podNoPorts]) ("9".data) =
      some ⟨podNoPorts.id, pod_host_id podNoPorts ++ ".runpod.io".data,
        "22".data, podNoPorts.name, podNoPorts.costPerHr⟩ :=
  resolver_falls_back_without_error podNoPorts ("9".data) rfl rfl

/- ===== C6, C9: deployment acquisition ===== -/

/-- C6: with no existing pod to reuse, a failing first creation on the
COMMUNITY tier is resubmitted exactly once with SECURE substituted (the
call trace is exactly `[COMMUNITY, SECURE]` whatever the outcome of the
fallback: success is returned, failure propagates raw); a failing creation
on a template already on SECURE is surfaced with no fallback creation
attempt (trace exactly `[SECURE]`). -/
theorem deploy_tier_fallback_once {E : Type} (pods : List PodRec)
    (cfg_name : Str) (create_pod : Nat → CloudType → Except E PodRec)
    (hnone : pods.filter
      (fun p => p.name == some cfg_name
        && p.desiredStatus == some ("RUNNING".data)) = []) :
    (∀ e, create_pod 0 .COMMUNITY = .error e →
      (cmd_deploy_acquire pods cfg_name .COMMUNITY create_pod).2 =
        [.COMMUNITY, .SECURE]
      ∧ (∀ pod, create_pod 1 .SECURE = .ok pod →
          (cmd_deploy_acquire pods cfg_name .COMMUNITY create_pod).1 =
            .success pod false)
      ∧ (∀ e2, create_pod 1 .SECURE = .error e2 →
          (cmd_deploy_acquire pods cfg_name .COMMUNITY create_pod).1 =
            .raised e2))
    ∧ (∀ e, create_pod 0 .SECURE = .error e →
        (cmd_deploy_acquire pods cfg_name .SECURE create_pod).2 = [.SECURE]
        ∧ (cmd_deploy_acquire pods cfg_name .SECURE create_pod).1 = .gaveUp e) := by
  constructor
  · intro e he
    refine ⟨?_, fun pod hpod => ?_, fun e2 he2 => ?_⟩ <;>
      · simp only [cmd_deploy_acquire, hnone, he]
        cases h1 : create_pod 1 CloudType.SECURE <;>
          simp_all
  · intro e he
    constructor <;> simp only [cmd_deploy_acquire, hnone, he]

/-- C6 witness: a COMMUNITY template whose first creation fails and whose
SECURE resubmission succeeds, and a SECURE template whose creation fails. -/
theorem deploy_tier_fallback_once_witness :
    (cmd_deploy_acquire [] ("ltx2-comfyui-value".data) .COMMUNITY
        (fun i _ => if i == 0 then (.error ("GPU unavailable".data) : Except Str PodRec)
          else .ok podNoPorts)).2 = [.COMMUNITY, .SECURE]
    ∧ (cmd_deploy_acquire [] ("ltx2-comfyui-value".data) .COMMUNITY
        (fun i _ => if i == 0 then (.error ("GPU unavailable".data) : Except Str PodRec)
          else .ok podNoPorts)).1 = .success podNoPorts false
    ∧ (cmd_deploy_acquire [] ("ltx2-comfyui-prod".data) .SECURE
        (fun _ _ => (.error ("GPU unavailable".data) : Except Str PodRec))).2 =
          [.SECURE] := by
  refine ⟨?_, ?_, ?_⟩
  · exact ((deploy_tier_fallback_once [] ("ltx2-comfyui-value".data) _ rfl).1
      ("GPU unavailable".data) rfl).1
  · exact ((deploy_tier_fallback_once [] ("ltx2-comfyui-value".data) _ rfl).1
      ("GPU unavailable".data) rfl).2.1 podNoPorts rfl
  · exact ((deploy_tier_fallback_once [] ("ltx2-comfyui-prod".data) _ rfl).2
      ("GPU unavailable".data) rfl).1

/-- C9: when the listing contains a pod whose name equals the config name
with desired status RUNNING, `cmd_deploy` reuses (the first) such existing
record and makes no creation call at all: the create-call trace is empty. -/
theorem deploy_reuses_existing_pod {E : Type} (pods : List PodRec)
    (cfg_name : Str) (cloud_type : CloudType)
    (create_pod : Nat → CloudType → Except E PodRec) (p : PodRec)
    (hp : p ∈ pods) (hname : p.name = some cfg_name)
    (hstat : p.desiredStatus = some ("RUNNING".data)) :
    ∃ q, cmd_deploy_acquire pods cfg_name cloud_type create_pod =
        (.success q true, [])
      ∧ q ∈ pods ∧ q.name = some cfg_name
      ∧ q.desiredStatus = some ("RUNNING".data) := by
  have hpf : p ∈ pods.filter
      (fun p => p.name == some cfg_name
        && p.desiredStatus == some ("RUNNING".data)) :=
    List.mem_filter.mpr ⟨hp, by simp [hname, hstat]⟩
  cases heq : pods.filter
      (fun p => p.name == some cfg_name
        && p.desiredStatus == some ("RUNNING".data)) with
  | nil => rw [heq] at hpf; cases hpf
  | cons q t =>
    have hqf : q ∈ pods.filter
        (fun p => p.name == some cfg_name
          && p.desiredStatus == some ("RUNNING".data)) := by
      rw [heq]; exact List.mem_cons_self q t
    have hq := List.mem_filter.mp hqf
    refine ⟨q, ?_, hq.1, ?_, ?_⟩
    · simp only [cmd_deploy_acquire, heq]
    · have := hq.2
      simp only [Bool.and_eq_true, beq_iff_eq] at this
      exact this.1
    · have := hq.2
      simp only [Bool.and_eq_true, beq_iff_eq] at this
      exact this.2

/-- C9 witness: re-invoking deploy while the named pod is RUNNING reuses it
and the create-call trace stays empty. -/
theorem deploy_reuses_existing_pod_witness :
    ∃ q, cmd_deploy_acquire [podNoPorts] ("ltx2-comfyui-prod".data) .SECURE
        (fun _ _ => (.error ("never called".data) : Except Str PodRec)) =
        (.success q true, [])
      ∧ q ∈ [podNoPorts] ∧ q.name = some ("ltx2-comfyui-prod".data)
      ∧ q.desiredStatus = some ("RUNNING".data) :=
  deploy_reuses_existing_pod [podNoPorts] ("ltx2-comfyui-prod".data) .SECURE
    (fun _ _ => (.error ("never called".data) : Except Str PodRec)) podNoPorts
    (List.mem_cons_self _ _) rfl rfl

/- ===== C7: provisioning wait loop ===== -/

theorem wait_loop_stuck {E : Type} (poll : Nat → Except E PodRec)
    (hready : ∀ m pod, poll m = .ok pod → ssh_ready pod = false)
    (timeout n t : Nat) : wait_loop poll timeout n t = .timedOut := by
  rw [wait_loop]
  split
  · cases hp : poll n with
    | error e =>
      exact wait_loop_stuck poll hready timeout (n + 1) (t + 2)
    | ok pod =>
      dsimp only
      rw [hready n pod hp]
      simp only [Bool.false_eq_true, if_false]
      exact wait_loop_stuck poll hready timeout (n + 1) (t + 5)
  · rfl
termination_by timeout - t

/-- C7: when every successful poll yields a record with desired status
RUNNING but no port mapping having private port 22 with the
publicly-reachable flag set, the wait loop never returns a pod for any
timeout budget or starting point — once the budget elapses it raises
`TimeoutError`; `cmd_deploy` then reports failure (with the default 300s
budget) without issuing any terminate request. -/
theorem wait_running_unreachable_times_out {E : Type}
    (poll : Nat → Except E PodRec)
    (h : ∀ m pod, poll m = .ok pod →
      pod.desiredStatus = some ("RUNNING".data)
      ∧ ∀ p ∈ pod_ports pod, ¬(p.privatePort = 22 ∧ p.isIpPublic = true)) :
    (∀ timeout n t, wait_loop poll timeout n t = .timedOut)
    ∧ wait_for_pod poll wait_for_pod_default_timeout = .timedOut
    ∧ cmd_deploy_wait poll = ⟨false, []⟩ := by
  have hready : ∀ m pod, poll m = .ok pod → ssh_ready pod = false := by
    intro m pod hp
    obtain ⟨hrun, hports⟩ := h m pod hp
    rw [ssh_ready, hrun]
    simp only [beq_self_eq_true, Bool.true_and]
    rw [List.any_eq_false]
    intro p hpmem
    have := hports p hpmem
    simp only [Bool.and_eq_true, beq_iff_eq]
    tauto
  refine ⟨fun timeout n t => wait_loop_stuck poll hready timeout n t, ?_, ?_⟩
  · exact wait_loop_stuck poll hready wait_for_pod_default_timeout 0 0
  · rw [cmd_deploy_wait, wait_for_pod,
      wait_loop_stuck poll hready wait_for_pod_default_timeout 0 0]

/-- A pod reporting RUNNING whose only port-22 mapping is not flagged
publicly reachable. -/
def podUnreachable : PodRec :=
  ⟨"pod2".data, some ("hunyuan-comfyui-budget".data), some ("RUNNING".data),
   some [⟨22, 22022, none, false⟩], none, none⟩

/-- C7 witness: polling always returns the RUNNING-but-unreachable pod; the
default 300s budget ends in `TimeoutError` and deploy reports failure with
no terminate call. -/
theorem wait_running_unreachable_times_out_witness :
    wait_loop (fun _ => (.ok podUnreachable : Except Unit PodRec)) 300 0 0 =
      .timedOut
    ∧ cmd_deploy_wait (fun _ => (.ok podUnreachable : Except Unit PodRec)) =
        ⟨false, []⟩ := by
  have hmain := wait_running_unreachable_times_out
    (fun _ => (.ok podUnreachable : Except Unit PodRec))
    (by
      intro m pod hp
      injection hp with hp
      subst hp
      refine ⟨rfl, ?_⟩
      intro p hpmem
      have : p = (⟨22, 22022, none, false⟩ : PortMap) := by
        simpa [podUnreachable, pod_ports] using hpmem
      subst this
      simp)
  exact ⟨hmain.1 300 0 0, hmain.2.2⟩

/- ===== C8: ingestion classifier ===== -/

theorem mem_insertByLen {x a : Str} {l : List Str} :
    a ∈ insertByLen x l ↔ a = x ∨ a ∈ l := by
  induction l with
  | nil => simp [insertByLen]
  | cons y ys ih =>
    rw [insertByLen]
    split
    · simp
    · simp only [List.mem_cons, ih]
      tauto

theorem mem_sortByLenDesc {a : Str} {l : List Str} :
    a ∈ sortByLenDesc l ↔ a ∈ l := by
  induction l with
  | nil => simp [sortByLenDesc]
  | cons x xs ih =>
    rw [sortByLenDesc, mem_insertByLen]
    simp only [List.mem_cons, ih]

/-- `sorted_folders` is ordered by non-increasing name length. -/
theorem sorted_folders_pairwise :
    sorted_folders.Pairwise (fun a b => b.length ≤ a.length) := by decide

/-- `List.find?` on a list sorted by non-increasing length returns an
element of maximal length among those satisfying the predicate. -/
theorem find?_length_max {p : Str → Bool} {a : Str} :
    ∀ {l : List Str}, l.Pairwise (fun a b => b.length ≤ a.length) →
      l.find? p = some a → ∀ b ∈ l, p b = true → b.length ≤ a.length := by
  intro l
  induction l with
  | nil => intro _ h; cases h
  | cons x xs ih =>
    intro hpair hfind b hb hpb
    rw [List.find?_cons] at hfind
    rcases List.pairwise_cons.mp hpair with ⟨hhead, htail⟩
    cases hpx : p x with
    | true =>
      rw [hpx] at hfind
      injection hfind with hfind
      subst hfind
      rcases List.mem_cons.mp hb with hbx | hbxs
      · subst hbx; exact le_rfl
      · exact hhead b hbxs
    | false =>
      rw [hpx] at hfind
      rcases List.mem_cons.mp hb with hbx | hbxs
      · subst hbx; rw [hpx] at hpb; cases hpb
      · exact ih htail hfind b hbxs hpb

/-- C8: `guess_category` tries the configured category names longest-first,
full-path-segment matches before lowercased-substring matches: (i) a
segment-matching category is never returned when a strictly longer category
also segment-matches; (ii) whenever any category segment-matches, the
result is a segment-matching category; (iii) a URL whose path contains the
segment `clip_vision` is never assigned the shorter `clip` category and is
always assigned some category; and (iv) the example URL of the spec
classifies
to `clip_vision`. -/
theorem guess_category_longest_segment_first (url : Str) :
    (∀ f g, f ∈ MODEL_FOLDERS → g ∈ MODEL_FOLDERS →
      (url_parts url).contains f = true → (url_parts url).contains g = true →
      f.length < g.length → guess_category url ≠ some f)
    ∧ (∀ f, f ∈ MODEL_FOLDERS → (url_parts url).contains f = true →
        ∃ g, guess_category url = some g ∧ g ∈ MODEL_FOLDERS
          ∧ (url_parts url).contains g = true)
    ∧ ((url_parts url).contains ("clip_vision".data) = true →
        guess_category url ≠ some ("clip".data)
        ∧ (guess_category url).isSome = true)
    ∧ guess_category ("https://example.com/models/clip_vision/model.bin".data)
        = some ("clip_vision".data) := by
  have hguess : guess_category url =
      match sorted_folders.find? (fun folder => (url_parts url).contains folder) with
      | some folder => some folder
      | none => sorted_folders.find? (fun folder => containsSub folder (pyLower url)) := by
    rw [guess_category, url_parts]
  cases hfind : sorted_folders.find? (fun folder => (url_parts url).contains folder) with
  | some f0 =>
    rw [hfind] at hguess
    have hPf0 : (url_parts url).contains f0 = true := List.find?_some hfind
    have hf0mem : f0 ∈ MODEL_FOLDERS :=
      mem_sortByLenDesc.mp (List.mem_of_find?_eq_some hfind)
    have hmax : ∀ b ∈ sorted_folders,
        (url_parts url).contains b = true → b.length ≤ f0.length :=
      find?_length_max sorted_folders_pairwise hfind
    have hstep1 : ∀ f g, f ∈ MODEL_FOLDERS → g ∈ MODEL_FOLDERS →
        (url_parts url).contains f = true → (url_parts url).contains g = true →
        f.length < g.length → guess_category url ≠ some f := by
      intro f g _ hg hPf hPg hlen hEq
      rw [hguess] at hEq
      injection hEq with hEq
      subst hEq
      have := hmax g (mem_sortByLenDesc.mpr hg) hPg
      omega
    refine ⟨hstep1, ?_, ?_, by decide⟩
    · intro f _ _
      exact ⟨f0, hguess, hf0mem, hPf0⟩
    · intro hcv
      refine ⟨?_, by rw [hguess]; rfl⟩
      intro hEq
      have hPclip : (url_parts url).contains ("clip".data) = true := by
        rw [hguess] at hEq
        injection hEq with hEq
        rw [← hEq]
        exact hPf0
      exact hstep1 ("clip".data) ("clip_vision".data) (by decide) (by decide)
        hPclip hcv (by decide) hEq
  | none =>
    have hnoseg : ∀ f ∈ MODEL_FOLDERS, ¬ (url_parts url).contains f = true := by
      rw [List.find?_eq_none] at hfind
      intro f hf
      exact hfind f (mem_sortByLenDesc.mpr hf)
    refine ⟨?_, ?_, ?_, by decide⟩
    · intro f g hf hg hPf hPg hlen
      exact absurd hPf (hnoseg f hf)
    · intro f hf hPf
      exact absurd hPf (hnoseg f hf)
    · intro hcv
      exact absurd hcv (hnoseg ("clip_vision".data) (by decide))

/-- C8 witness: a URL with a `clip_vision` path segment is never assigned
`clip` and always assigned some category. -/
theorem guess_category_longest_segment_first_witness :
    guess_category ("https://hf.co/repo/clip_vision/weights.bin".data)
        ≠ some ("clip".data)
    ∧ (guess_category ("https://hf.co/repo/clip_vision/weights.bin".data)).isSome
        = true :=
  (guess_category_longest_segment_first
    ("https://hf.co/repo/clip_vision/weights.bin".data)).2.2.1 (by decide)

/- ===== C10: manual ingestion review ===== -/

/-- C10: in the review phase's fixed 11-category list, every all-digits
selection c ≥ 1 picks the category at index `min(c-1, 10)` — an
out-of-range selection (c ≥ 12) is silently clamped to the last category,
`upscale_models`, and the download proceeds into its destination directory —
while non-numeric input or 0 skips the file. -/
theorem ingest_review_clamps_selection (s : Str) (c : Nat) :
    (isDigitStr s = true → pyToNat s = c → 1 ≤ c →
      ingest_review_select s =
        some (MODEL_FOLDERS.getD (min (c - 1) (MODEL_FOLDERS.length - 1)) [])
      ∧ (12 ≤ c →
          ingest_review_select s = some ("upscale_models".data)
          ∧ ingest_review_dest s =
              some ("/workspace/ComfyUI/models/upscale_models".data)))
    ∧ ((isDigitStr s = false ∨ pyToNat s = 0) → ingest_review_select s = none)
    ∧ MODEL_FOLDERS.length = 11 := by
  refine ⟨?_, ?_, by decide⟩
  · intro hdig hval hge
    subst hval
    have hsel : ingest_review_select s =
        some (MODEL_FOLDERS.getD (min (pyToNat s - 1) (MODEL_FOLDERS.length - 1)) []) := by
      rw [ingest_review_select, hdig]
      have : (pyToNat s == 0) = false := by
        rw [beq_eq_false_iff_ne]
        omega
      rw [this]
      rfl
    refine ⟨hsel, fun hc => ?_⟩
    have hmin : min (pyToNat s - 1) (MODEL_FOLDERS.length - 1) = 10 := by
      have : MODEL_FOLDERS.length = 11 := by decide
      omega
    rw [hsel, hmin]
    constructor
    · rfl
    · rw [ingest_review_dest, hsel, hmin]
      rfl
  · intro h
    rcases h with h | h
    · rw [ingest_review_select, h]
      rfl
    · rw [ingest_review_select, h]
      cases hd : isDigitStr s <;> rfl

/-- C10 witness: the out-of-range selection "15" (N = 11) is clamped to the
last category and downloads into it; "0" skips. -/
theorem ingest_review_clamps_selection_witness :
    ingest_review_select ("15".data) = some ("upscale_models".data)
    ∧ ingest_review_dest ("15".data) =
        some ("/workspace/ComfyUI/models/upscale_models".data)
    ∧ ingest_review_select ("0".data) = none := by
  refine ⟨?_, ?_, ?_⟩
  · exact (((ingest_review_clamps_selection ("15".data) 15).1 (by decide) (by decide)
      (by decide)).2 (by decide)).1
  · exact (((ingest_review_clamps_selection ("15".data) 15).1 (by decide) (by decide)
      (by decide)).2 (by decide)).2
  · exact (ingest_review_clamps_selection ("0".data) 0).2.1 (Or.inr (by decide))
